import Mathlib

/-!
Verification development for the `dfu-assistant` VS Code chat extension
(`src/extension.ts`).  The extension implements a multi-turn conversational
wizard: a finite-state dialogue engine captures a platform, an optional
MotionWise configuration variant, and three function names, then hands the
finished configuration to an external language-model oracle.

The shallow embedding below translates the TypeScript handlers into pure
Lean functions.  Mutable `ConversationState` objects become explicit state
passing; the asynchronous oracle call becomes an `Except` value driven by an
explicit `OracleEnv` describing model availability and caller-driven
cancellation; the per-turn markdown stream becomes an accumulated
`List String`.
-/

namespace Dfu

/-- The `step` field of `ConversationState` in `src/extension.ts`:
`'initial' | 'config' | 'memory' | 'dataset' | 'alternative' | 'complete'`. -/
inductive Step where
  | initial
  | config
  | memory
  | dataset
  | alternative
  | complete
  deriving DecidableEq, Repr

/-- The `platform` values `'posix' | 'autosar'`. -/
inductive Platform where
  | posix
  | autosar
  deriving DecidableEq, Repr

/-- The closed `MotionWiseConfig` union type:
`'cp-rdb2' | 'cp-rdb3' | 'sv62' | 's324sdv' | 'ch63_2' | 'generic' | 'unknown'`. -/
inductive MotionWiseConfig where
  | cp_rdb2
  | cp_rdb3
  | sv62
  | s324sdv
  | ch63_2
  | generic
  | unknown
  deriving DecidableEq, Repr

/-- The TypeScript string literal naming each `MotionWiseConfig` value. -/
def MotionWiseConfig.name : MotionWiseConfig → String
  | .cp_rdb2 => "cp-rdb2"
  | .cp_rdb3 => "cp-rdb3"
  | .sv62 => "sv62"
  | .s324sdv => "s324sdv"
  | .ch63_2 => "ch63_2"
  | .generic => "generic"
  | .unknown => "unknown"

/-- The `MOTIONWISE_PATHS` record: integration path mapping for MotionWise
configs.  It is a total function on the closed `MotionWiseConfig` set. -/
def MOTIONWISE_PATHS : MotionWiseConfig → String
  | .cp_rdb2 => "1800-EcuIntegration/RDB2/1800-ecu-int-rdb2-cp-a/core/development/dmiu"
  | .cp_rdb3 => "1800-EcuIntegration/RDB3/1800-ecu-int-rdb3-cp-a/core/development/dmiu"
  | .sv62 => "1700-Configuration/RDB2/1710-handwritten-config-sv62/core/development/dmiu"
  | .s324sdv => "1700-Configuration/RDB2/1710-handwritten-config-s324sdv/core/development/dmiu"
  | .ch63_2 => "configs/projects/CH63_2/deployments/1710-handwritten-config-ch63_2/core/development/dmiu"
  | .generic => "1800-EcuIntegration/[PLATFORM]/core/development/dmiu"
  | .unknown => "1800-EcuIntegration/[PLATFORM]/core/development/dmiu"

/-- `ConversationState` from `src/extension.ts`: per-session dialogue state. -/
structure ConversationState where
  step : Step
  platform : Option Platform := none
  motionwiseConfig : Option MotionWiseConfig := none
  integrationPath : Option String := none
  memoryFunction : Option String := none
  datasetFunction : Option String := none
  alternativeFunction : Option String := none
  deriving DecidableEq, Repr

/-- `WorkspaceAnalysis` from `src/extension.ts`: the result of
`analyzeWorkspace()`.  The probing itself performs host file I/O, so the
embedding treats the analysis result as an input of each turn. -/
structure WorkspaceAnalysis where
  detectedPlatform : Option Platform := none
  detectedMotionWiseConfig : Option MotionWiseConfig := none
  memoryFunctions : List String := []
  datasetFunctions : List String := []
  existingIntegrationFiles : List String := []
  deriving DecidableEq, Repr

/-- Environment of the external language-model oracle for one turn:
whether `vscode.lm.selectChatModels` returns any model, whether the
caller-driven cancellation token aborts `model.sendRequest` (modelled as the
request throwing with message `errMessage`), and the text chunks streamed
back when the request succeeds. -/
structure OracleEnv where
  modelsAvailable : Bool
  cancelled : Bool := false
  errMessage : String := "Canceled"
  responseChunks : List String := []
  deriving DecidableEq, Repr

/-- JavaScript `String.prototype.trim()`: strip whitespace from both ends.
Defined over the character list so that it reduces inside the kernel. -/
def jsTrim (s : String) : String :=
  ⟨((s.data.dropWhile Char.isWhitespace).reverse.dropWhile Char.isWhitespace).reverse⟩

/-- JavaScript `String.prototype.toLowerCase()` on the ASCII tokens the
extension compares. -/
def jsToLower (s : String) : String :=
  ⟨s.data.map Char.toLower⟩

/-- JavaScript `String.prototype.toUpperCase()` on the ASCII tokens the
extension displays. -/
def jsToUpper (s : String) : String :=
  ⟨s.data.map Char.toUpper⟩

/-- The fresh state created on first contact: `\x7b step: 'initial' \x7d`. -/
def initialState : ConversationState := { step := .initial }

/-- The conversation store `conversationStates : Map<number, ConversationState>`,
modelled as a partial map on integer keys (`chatContext.history.length` and
its neighbours; `get(sessionKey - 1)` may probe `-1`). -/
def Store : Type := Int → Option ConversationState

/-- `Map.set`: point update of the store. -/
def Store.set (m : Store) (k : Int) (v : ConversationState) : Store :=
  fun k' => if k' = k then some v else m k'

/-- The session lookup at the top of the chat handler in `activate`:
`let state = conversationStates.get(sessionKey) || conversationStates.get(sessionKey - 1);`
`if (!state) state = \x7b step: 'initial' \x7d;`
`conversationStates.set(sessionKey + 1, state);`
returning the state used for this turn and the updated store. -/
def getOrCreate (m : Store) (sessionKey : Int) : ConversationState × Store :=
  let state :=
    match m sessionKey with
    | some st => st
    | none =>
      match m (sessionKey - 1) with
      | some st => st
      | none => initialState
  (state, Store.set m (sessionKey + 1) state)

/-- The `DFU_KNOWLEDGE` template literal (overview text shown at the
`initial` step and sent as the first oracle message). -/
def DFU_KNOWLEDGE : String :=
  "# DFU (Development Feature Unlocking) Overview\n\n" ++
  "## What is DFU/DMIU?\n\n" ++
  "DFU (Development Feature Unlocking Service), also known as DMIU (Development Mode Initialization Unit), enables different debug levels:\n" ++
  "- **Debug Level 1** - Basic debugging features\n" ++
  "- **Debug Level 2** - Advanced debugging features  \n" ++
  "- **Safe Level** - Production mode (no debug features)\n\n" ++
  "## Architecture\n\n" ++
  "- **Core (1200-Core)**: Platform-agnostic logic (common for all configurations)\n" ++
  "- **Integration Layer**: Platform-specific handwritten code\n\n" ++
  "## Initialization\n\n" ++
  "Call `DMIU_Initialize(config_struct)` where config has three attributes:\n" ++
  "1. **target_memory**: Pointer to struct with two uint32 (MagicFlagA, MagicFlagB)\n" ++
  "2. **dataset_read_func**: Function to load from persistent storage\n" ++
  "3. **debug_level_override_func**: Alternative source with OR logic\n\n" ++
  "## Platform-Specific Initialization\n\n" ++
  "- **AUTOSAR**: Call from PreOS.c startup sequence\n" ++
  "- **POSIX**: Run dmiu daemon, main() from integration layer\n\n" ++
  "## Client API\n\n" ++
  "```c\n" ++
  "#include \"Debug_Mode.h\"\n" ++
  "if (Dmiu_IsDebugLevel1Active()) \x7b /* basic debug */ \x7d\n" ++
  "if (Dmiu_IsDebugLevel2Active()) \x7b /* advanced debug */ \x7d\n" ++
  "// If neither active \u2192 Safe Level (production)\n" ++
  "```\n\n" ++
  "## Magic Flag Values\n\n" ++
  "```c\n" ++
  "// DEBUG_LEVEL_SAFE: 0x00000000, 0x00000000\n" ++
  "// DEBUG_LEVEL_1:    0xDEB00001, 0xDEB00001\n" ++
  "// DEBUG_LEVEL_2:    0xDEB00002, 0xDEB00002\n" ++
  "```\n"

/-- The `MOTIONWISE_CONTEXT` template literal (MotionWise platform briefing). -/
def MOTIONWISE_CONTEXT : String :=
  "## MotionWise Platform Architecture\n\n" ++
  "### Build System\n" ++
  "- MotionWise uses **BAZEL** as build system\n" ++
  "- Top level build file: `1500-build/BUILD.bazel`\n" ++
  "- Uses GENIE framework for code generation (\"wishes\")\n" ++
  "- Close to 200 git repositories\n\n" ++
  "### Repository Structure\n" ++
  "- **1200-Core**: Platform-agnostic services (common for all)\n" ++
  "- **1900-sysdef**: Manual configuration input (CP, s324sdv, SV62)\n" ++
  "- **1700-Configuration**: Generated configuration output\n" ++
  "- **1800-EcuIntegration** or **1710-handwritten-config**: Handwritten platform-specific code\n\n" ++
  "### DMIU Integration Paths by Configuration\n\n" ++
  "| Configuration | Board | Integration Path |\n" ++
  "|--------------|-------|------------------|\n" ++
  "| CP | RDB2 | `1800-EcuIntegration/RDB2/1800-ecu-int-rdb2-cp-a/core/development/dmiu` |\n" ++
  "| CP | RDB3 | `1800-EcuIntegration/RDB3/1800-ecu-int-rdb3-cp-a/core/development/dmiu` |\n" ++
  "| SV62 (HCP2MEJ) | RDB2 | `1700-Configuration/RDB2/1710-handwritten-config-sv62/core/development/dmiu` |\n" ++
  "| s324sdv (SDV) | RDB2 | `1700-Configuration/RDB2/1710-handwritten-config-s324sdv/core/development/dmiu` |\n" ++
  "| CH63_2 | - | `configs/projects/CH63_2/deployments/1710-handwritten-config-ch63_2/core/development/dmiu` |\n\n" ++
  "**Note:** s324sdv has two ECU configurations (corner case).\n"

/-- Template-literal interpolation of an optional string: JavaScript renders
`undefined` as the text `undefined`. -/
def optStr : Option String → String
  | none => "undefined"
  | some s => s

/-- The TypeScript string literal naming each platform. -/
def Platform.name : Platform → String
  | .posix => "posix"
  | .autosar => "autosar"

/-- Interpolation of the optional `platform` field. -/
def optPlatformStr : Option Platform → String
  | none => "undefined"
  | some p => p.name

/-- Interpolation of `state.platform?.toUpperCase()` (optional chaining on
`undefined` again renders as `undefined`). -/
def optPlatformUpperStr : Option Platform → String
  | none => "undefined"
  | some p => jsToUpper p.name

/-- `buildCodeGenerationPrompt`: the structured request sent to the oracle,
a pure function of the captured platform and the three function names. -/
def buildCodeGenerationPrompt (state : ConversationState) : String :=
  "Generate complete DMIU integration for " ++ optPlatformUpperStr state.platform ++
  " platform.\n\n" ++
  "Configuration:\n" ++
  "- Platform: " ++ optPlatformStr state.platform ++ "\n" ++
  "- Memory: " ++ optStr state.memoryFunction ++ "\n" ++
  "- Dataset: " ++ optStr state.datasetFunction ++ "\n" ++
  "- Alternative: " ++ optStr state.alternativeFunction ++ "\n\n" ++
  "Generate these files with TTTech Auto copyright (2025), MISRA justifications, Doxygen docs:\n\n" ++
  "1. **dmiu_integration.h** - Header with function declarations\n" ++
  "2. **dmiu_integration.c** - Implementation with adapters for user\x27s functions\n" ++
  (if state.platform = some .posix then "3. **main.c** - POSIX daemon entry point" else "") ++
  "\n\n" ++
  "Create adapter functions if user\x27s functions don\x27t match required signatures:\n" ++
  "- Memory adapter: Cast/wrap to return Dt_RECORD_DebugUnlockingStruct_DMIU*\n" ++
  "- Dataset adapter: Convert return type to magic flags (0xDEB00001/0xDEB00002/0x00000000)\n" ++
  "- Alternative adapter: Convert to e_Dmiu_Debug_Level with OR logic\n\n" ++
  "Show complete, compilable code for each file."

/-- `generateIntegrationCode`: if no chat model is available, emit the
warning and the fallback configuration summary; otherwise send the request,
which the caller-driven cancellation token may abort (modelled as a thrown
error), else stream the response chunks back verbatim. -/
def generateIntegrationCode (oracle : OracleEnv) (state : ConversationState) :
    Except String (List String) :=
  if oracle.modelsAvailable = false then
    Except.ok
      ["⚠️ Language Model not available\n\n",
       "Config: Platform=" ++ optPlatformStr state.platform ++
         ", Memory=" ++ optStr state.memoryFunction ++
         ", Dataset=" ++ optStr state.datasetFunction ++
         ", Alt=" ++ optStr state.alternativeFunction ++ "\n"]
  else if oracle.cancelled then
    Except.error oracle.errMessage
  else
    Except.ok oracle.responseChunks

/-- Help text of `handleIntegrateCommand` when no valid platform token is
given. -/
def integrateHelpLines : List String :=
  ["## DFU Integration\n\n",
   "Please specify platform:\n\n",
   "- `posix` - Generic POSIX platform\n",
   "- `autosar` - Generic AUTOSAR platform\n",
   "- `motionwise` - MotionWise platform (auto-detects configuration)\n\n",
   "**Example:** `@dfu /integrate motionwise`\n"]

/-- The MotionWise configuration menu asked when auto-detection fails. -/
def configMenuLines : List String :=
  ["### Which MotionWise configuration are you using?\n\n",
   "Available configurations:\n",
   "1. `cp-rdb2` - CP on RDB2 board\n",
   "2. `cp-rdb3` - CP on RDB3 board\n",
   "3. `sv62` - SV62 (HCP2MEJ) on RDB2\n",
   "4. `s324sdv` - s324sdv (SDV) on RDB2\n",
   "5. `ch63_2` - CH63_2 configuration\n",
   "6. `generic` - Generic/custom configuration\n\n",
   "💬 **Reply with configuration name** (e.g., \"cp-rdb2\")\n"]

/-- The file-structure block printed once an integration path is fixed. -/
def fileStructureLines (state : ConversationState) : List String :=
  ["### Files to be created:\n\n",
   "```\n",
   optStr state.integrationPath ++ "/\n",
   "├── api/dmiu_integration.h\n",
   "└── src/\n",
   "    ├── dmiu_integration.c\n"]
  ++ (if state.platform = some .posix then ["    └── main.c\n"] else [])
  ++ ["```\n\n"]

/-- The Step 1/3 memory-allocation question of `handleIntegrateCommand`. -/
def stepOneLines (state : ConversationState) (analysis : WorkspaceAnalysis) : List String :=
  ["### Step 1/3: Memory Allocation\n\n",
   "Which function should I use for memory allocation?\n\n"]
  ++ (if analysis.memoryFunctions.length > 0 then
        ["**Found in workspace:**\n"]
        ++ analysis.memoryFunctions.enum.map
            (fun p => toString (p.1 + 1) ++ ". `" ++ p.2 ++ "`\n")
        ++ ["\n"]
      else [])
  ++ ["**Options:**\n"]
  ++ (if state.platform = some .posix then
        ["- `ShmM_MapOwner` - Shared memory (recommended)\n"]
      else [])
  ++ ["- `static` - Static global variable\n",
      "- Or provide your custom function name\n\n",
      "💬 **Just reply with your choice**\n"]

/-- `handleIntegrateCommand`: validate the platform token, set `platform`,
then branch on MotionWise auto-detection.  `analysis` is the result of the
`analyzeWorkspace()` call made inside the handler. -/
def handleIntegrateCommand (prompt : String) (analysis : WorkspaceAnalysis)
    (state : ConversationState) : ConversationState × List String :=
  let input := jsToLower (jsTrim prompt)
  if input ≠ "posix" ∧ input ≠ "autosar" ∧ input ≠ "motionwise" then
    (state, integrateHelpLines)
  else
    let platformVal : Platform :=
      if input = "posix" then Platform.posix
      else if input = "autosar" then Platform.autosar
      else Platform.posix
    let state := { state with platform := some platformVal }
    let startLine := "## Starting " ++ jsToUpper input ++ " Integration\n\n"
    if input = "motionwise" then
      let contextLine := MOTIONWISE_CONTEXT ++ "\n\n"
      match analysis.detectedMotionWiseConfig with
      | some cfg =>
        if cfg ≠ .unknown then
          let state := { state with
            motionwiseConfig := some cfg,
            integrationPath := some (MOTIONWISE_PATHS cfg),
            step := .memory }
          (state,
           [startLine, contextLine,
            "✅ Detected configuration: **" ++ jsToUpper cfg.name ++ "**\n",
            "📁 Integration path: `" ++ optStr state.integrationPath ++ "`\n\n"]
           ++ fileStructureLines state ++ stepOneLines state analysis)
        else
          ({ state with step := .config }, [startLine, contextLine] ++ configMenuLines)
      | none =>
        ({ state with step := .config }, [startLine, contextLine] ++ configMenuLines)
    else
      let state := { state with
        step := .memory,
        integrationPath := some "1800-EcuIntegration/[PLATFORM]/core/development/dmiu" }
      (state, [startLine] ++ fileStructureLines state ++ stepOneLines state analysis)

/-- `handleValidateCommand`: stateless report on existing integration files. -/
def handleValidateCommand (analysis : WorkspaceAnalysis) : List String :=
  ["## DMIU Integration Validation\n\n"]
  ++ (if analysis.existingIntegrationFiles.length = 0 then
        ["❌ No integration files found\n\n",
         "Run `@dfu /integrate posix` or `@dfu /integrate autosar` to start.\n"]
      else
        ["### Found Integration Files:\n\n"]
        ++ analysis.existingIntegrationFiles.map (fun file => "✅ " ++ file ++ "\n"))

/-- `handleAdapterCommand`: stateless Q&A prompt about a named function. -/
def handleAdapterCommand (prompt : String) : List String :=
  let functionName := jsTrim prompt
  if functionName = "" then
    ["Please provide a function name.\n\n",
     "**Example:** `@dfu /adapter MyDatasetFunction`\n"]
  else
    ["## Generating Adapter for `" ++ functionName ++ "`\n\n",
     "What does this function return?\n\n",
     "- String (e.g., \"debug_level_2\")\n",
     "- Integer (0/1/2)\n",
     "- Boolean\n",
     "- Compatible type\n"]

/-- The numeric `configMap` lookup of the `config` branch of
`handleConversationFlow` (`\x7b \x271\x27: \x27cp-rdb2\x27, … \x7d`). -/
def configMap (msg : String) : Option MotionWiseConfig :=
  if msg = "1" then some .cp_rdb2
  else if msg = "2" then some .cp_rdb3
  else if msg = "3" then some .sv62
  else if msg = "4" then some .s324sdv
  else if msg = "5" then some .ch63_2
  else if msg = "6" then some .generic
  else none

/-- Interpreting a lowercased free-text reply as a `MOTIONWISE_PATHS` key. -/
def motionWiseConfigOfString (s : String) : Option MotionWiseConfig :=
  if s = "cp-rdb2" then some .cp_rdb2
  else if s = "cp-rdb3" then some .cp_rdb3
  else if s = "sv62" then some .sv62
  else if s = "s324sdv" then some .s324sdv
  else if s = "ch63_2" then some .ch63_2
  else if s = "generic" then some .generic
  else if s = "unknown" then some .unknown
  else none

/-- `const selectedConfig = configMap[userMessage] || userMessage.toLowerCase()`
followed by the `selectedConfig && MOTIONWISE_PATHS[selectedConfig]` validity
test: the selection succeeds exactly when the numeric map hits, or the
lowercased text is one of the seven `MOTIONWISE_PATHS` keys. -/
def parseMotionWiseConfig (userMessage : String) : Option MotionWiseConfig :=
  match configMap userMessage with
  | some c => some c
  | none => motionWiseConfigOfString (jsToLower userMessage)

/-- Result of one turn of the chat handler: the session state after the
turn, the markdown stream, a propagating exception (if any), and the state
snapshot passed to `generateIntegrationCode` when generation was triggered. -/
structure TurnResult where
  state : ConversationState
  output : List String
  err : Option String := none
  gen : Option ConversationState := none
  deriving DecidableEq, Repr

/-- Closing lines of a successful generation turn. -/
def completeLines : List String :=
  ["\n\n✅ **Integration complete!**\n\n",
   "Next steps:\n",
   "1. Review generated files\n",
   "2. Compile and test\n",
   "3. Use `@dfu /validate` to check\n"]

/-- `handleConversationFlow`: the dialogue engine, branching on `state.step`. -/
def handleConversationFlow (prompt : String) (oracle : OracleEnv)
    (state : ConversationState) : TurnResult :=
  let userMessage := jsTrim prompt
  match state.step with
  | .initial =>
    { state := state,
      output :=
        [DFU_KNOWLEDGE,
         "\n\n💡 **Get started:** `@dfu /integrate posix` or `@dfu /integrate autosar` or `@dfu /integrate motionwise`\n"] }
  | .config =>
    match parseMotionWiseConfig userMessage with
    | some selectedConfig =>
      let state := { state with
        motionwiseConfig := some selectedConfig,
        integrationPath := some (MOTIONWISE_PATHS selectedConfig),
        step := .memory }
      { state := state,
        output :=
          ["✅ Configuration: **" ++ selectedConfig.name ++ "**\n\n",
           "📁 Integration path: `" ++ optStr state.integrationPath ++ "`\n\n",
           "### Step 1/3: Memory Management\n\n",
           "Which function provides memory pointer?\n\n",
           "Requirements:\n",
           "- Returns void* to memory region\n",
           "- Persistent memory for DMIU config\n",
           "- Compatible type\n\n",
           "💬 **Reply with function name**\n"] }
    | none =>
      { state := state,
        output := ["❌ Invalid configuration. Please choose 1-6 or type the config name.\n"] }
  | .memory =>
    let state := { state with memoryFunction := some userMessage, step := .dataset }
    { state := state,
      output :=
        ["✅ Memory: `" ++ userMessage ++ "`\n\n",
         "### Step 2/3: Dataset Loading\n\n",
         "Which function loads debug configuration?\n\n",
         "Provide function name or describe what it returns:\n",
         "- String (\"debug_level_1\", \"debug_level_2\", \"safe\")\n",
         "- Integer (0=safe, 1=level1, 2=level2)\n",
         "- Compatible signature\n\n",
         "💬 **Reply with function name or description**\n"] }
  | .dataset =>
    let state := { state with datasetFunction := some userMessage, step := .alternative }
    { state := state,
      output :=
        ["✅ Dataset: `" ++ userMessage ++ "`\n\n",
         "### Step 3/3: Alternative Load\n\n",
         "Which function provides alternative debug level?\n\n",
         "Options:\n",
         "- Function name (if you have one)\n",
         "- `none` (stub returning SAFE)\n\n",
         "💬 **Reply with function name or \"none\"**\n"] }
  | .alternative =>
    let s1 := { state with alternativeFunction := some userMessage, step := .complete }
    let pre :=
      ["✅ Alternative: `" ++ userMessage ++ "`\n\n",
       "## Generating Integration Files...\n\n"]
    match generateIntegrationCode oracle s1 with
    | Except.error e =>
      { state := s1, output := pre, err := some e, gen := some s1 }
    | Except.ok genOut =>
      { state := { s1 with step := .initial },
        output := pre ++ genOut ++ completeLines,
        gen := some s1 }
  | .complete =>
    { state := state, output := [] }

/-- One inbound chat request: the slash command (if any) and the prompt. -/
structure ChatRequest where
  command : Option String
  prompt : String
  deriving DecidableEq, Repr

/-- The `try`-block body of the chat handler registered in `activate`:
dispatch on the slash command, else continue the conversation flow. -/
def dispatchTurn (req : ChatRequest) (analysis : WorkspaceAnalysis) (oracle : OracleEnv)
    (state : ConversationState) : TurnResult :=
  if req.command = some "integrate" then
    let r := handleIntegrateCommand req.prompt analysis state
    { state := r.1, output := r.2 }
  else if req.command = some "validate" then
    { state := state, output := handleValidateCommand analysis }
  else if req.command = some "adapter" then
    { state := state, output := handleAdapterCommand req.prompt }
  else
    handleConversationFlow req.prompt oracle state

/-- The full chat handler of `activate` for one turn (minus the store):
run the dispatch and catch any exception, appending the error line. -/
def activateTurn (req : ChatRequest) (analysis : WorkspaceAnalysis) (oracle : OracleEnv)
    (state : ConversationState) : TurnResult :=
  let r := dispatchTurn req analysis oracle state
  match r.err with
  | some msg =>
    { state := r.state, output := r.output ++ ["\n\n❌ Error: " ++ msg ++ "\n"],
      gen := r.gen }
  | none => r

/-- Running a sequence of turns (each with its own analysis and oracle
environment), collecting the state snapshots at which generation was
triggered.  The store is bypassed: within one conversation the handler
mutates one shared state object, i.e. threads the state from turn to turn. -/
def runTurns : List (ChatRequest × WorkspaceAnalysis × OracleEnv) →
    ConversationState → ConversationState × List ConversationState
  | [], s => (s, [])
  | (req, analysis, oracle) :: rest, s =>
    let r := activateTurn req analysis oracle s
    let rest' := runTurns rest r.state
    (rest'.1, r.gen.toList ++ rest'.2)

/-- Position of each step along the documented sequence
AWAITING_START → [AWAITING_VARIANT_SELECTION] → AWAITING_MEMORY_FN →
AWAITING_DATASET_FN → AWAITING_ALT_FN → DONE. -/
def stepPos : Step → Nat
  | .initial => 0
  | .config => 1
  | .memory => 2
  | .dataset => 3
  | .alternative => 4
  | .complete => 5

/-- Moving exactly one position forward along the sequence, where the
bracketed variant-selection position is optional (direct mode goes
AWAITING_START → AWAITING_MEMORY_FN) and DONE resets to AWAITING_START. -/
def oneForward (a b : Step) : Prop :=
  (a = .initial ∧ (b = .config ∨ b = .memory)) ∨
  (a = .config ∧ b = .memory) ∨
  (a = .memory ∧ b = .dataset) ∨
  (a = .dataset ∧ b = .alternative) ∨
  (a = .alternative ∧ b = .complete) ∨
  (a = .complete ∧ b = .initial)

instance (a b : Step) : Decidable (oneForward a b) := by
  unfold oneForward; infer_instance

/-- Simulation relation between two runs of the dialogue engine: the steps
agree, and each captured field consumed by a later generation agrees as soon
as the step has passed the turn that (re)writes it. -/
def Inv (a b : ConversationState) : Prop :=
  a.step = b.step ∧
  ((a.step = .config ∨ a.step = .memory ∨ a.step = .dataset ∨ a.step = .alternative) →
    a.platform = b.platform) ∧
  ((a.step = .dataset ∨ a.step = .alternative) → a.memoryFunction = b.memoryFunction) ∧
  (a.step = .alternative → a.datasetFunction = b.datasetFunction)

/-!  Theorems settling the claims.  -/

/-- Claim C6: the catalog resolver returns a non-empty path string for every
identifier in the closed variant set, and the `generic` and `unknown`
identifiers both map to the templated placeholder path. -/
theorem claim_C6 :
    (∀ c : MotionWiseConfig, MOTIONWISE_PATHS c ≠ "") ∧
    MOTIONWISE_PATHS .generic = "1800-EcuIntegration/[PLATFORM]/core/development/dmiu" ∧
    MOTIONWISE_PATHS .unknown = "1800-EcuIntegration/[PLATFORM]/core/development/dmiu" := by
  refine ⟨fun c => ?_, rfl, rfl⟩
  cases c <;> decide

/-- Claim C9: handling the begin-integration directive with the
variant-aware token `motionwise` always records the platform as POSIX;
in variant-aware mode the platform can never be AUTOSAR. -/
theorem claim_C9 (prompt : String) (analysis : WorkspaceAnalysis) (s : ConversationState)
    (h : jsToLower (jsTrim prompt) = "motionwise") :
    (handleIntegrateCommand prompt analysis s).1.platform = some Platform.posix ∧
    (handleIntegrateCommand prompt analysis s).1.platform ≠ some Platform.autosar := by
  have hmain : (handleIntegrateCommand prompt analysis s).1.platform = some Platform.posix := by
    unfold handleIntegrateCommand
    rw [h]
    simp only [ne_eq, reduceCtorEq, not_false_eq_true, String.reduceEq, if_true, if_false]
    cases analysis.detectedMotionWiseConfig with
    | none => simp
    | some cfg =>
      by_cases hc : cfg = .unknown <;> simp [hc]
  exact ⟨hmain, by rw [hmain]; simp⟩

/-- Claim C9 witness: the theorem applied to the literal directive
`motionwise` on a fresh session. -/
theorem claim_C9_witness :
    (handleIntegrateCommand "motionwise" {} initialState).1.platform = some Platform.posix :=
  (claim_C9 "motionwise" {} initialState (by decide)).1

/-- Claim C3: the conversation store lookup returns the entry under the
exact turn count when present, else the entry under the immediately
preceding count, else a fresh AWAITING_START state, and in every case the
resulting state is re-registered under the next count; hence a state
registered under K and queried under K+1 before any further write is
retrieved again. -/
theorem claim_C3 (m : Store) (K : Int) :
    (∀ v, m K = some v → (getOrCreate m K).1 = v) ∧
    (m K = none → ∀ v, m (K - 1) = some v → (getOrCreate m K).1 = v) ∧
    (m K = none → m (K - 1) = none → (getOrCreate m K).1 = initialState) ∧
    (getOrCreate m K).2 (K + 1) = some (getOrCreate m K).1 ∧
    (∀ v, m (K + 1) = none → (getOrCreate (Store.set m K v) (K + 1)).1 = v) := by
  refine ⟨?_, ?_, ?_, ?_, ?_⟩
  · intro v hv
    simp [getOrCreate, hv]
  · intro h0 v hv
    simp [getOrCreate, h0, hv]
  · intro h0 h1
    simp [getOrCreate, h0, h1]
  · simp [getOrCreate, Store.set]
  · intro v hv
    have h1 : Store.set m K v (K + 1) = none := by
      have hne : ¬ (K + 1 : Int) = K := by omega
      simp only [Store.set, if_neg hne]
      exact hv
    have h2 : Store.set m K v K = some v := by
      simp [Store.set]
    simp [getOrCreate, h1, h2]

/-- Claim C3 witness: the theorem applied to a store holding one state under
key 3 and queried under key 4. -/
theorem claim_C3_witness :
    (getOrCreate (Store.set (fun _ => none) 3 initialState) 4).1 = initialState :=
  (claim_C3 (fun _ => none) 3).2.2.2.2 initialState rfl

/-- Claim C2: every input rejected at a step — an invalid platform token on
the begin-integration directive, an unmatched variant selection at
AWAITING_VARIANT_SELECTION, or non-directive text at AWAITING_START — leaves
`step` and every captured field unchanged, and repeating the rejected input
any number of times never changes the session state. -/
theorem claim_C2 (s : ConversationState) (analysis : WorkspaceAnalysis) (oracle : OracleEnv)
    (req : ChatRequest)
    (hrej :
      (req.command = some "integrate" ∧
        jsToLower (jsTrim req.prompt) ≠ "posix" ∧
        jsToLower (jsTrim req.prompt) ≠ "autosar" ∧
        jsToLower (jsTrim req.prompt) ≠ "motionwise") ∨
      (req.command = none ∧ s.step = .config ∧
        parseMotionWiseConfig (jsTrim req.prompt) = none) ∨
      (req.command = none ∧ s.step = .initial)) :
    (activateTurn req analysis oracle s).state = s ∧
    ∀ n : Nat, (fun t => (activateTurn req analysis oracle t).state)^[n] s = s := by
  have hone : ∀ t : ConversationState, t.step = s.step →
      (activateTurn req analysis oracle t).state = t := by
    intro t ht
    rcases hrej with ⟨hc, h1, h2, h3⟩ | ⟨hc, hstep, hparse⟩ | ⟨hc, hstep⟩
    · simp [activateTurn, dispatchTurn, hc, handleIntegrateCommand, h1, h2, h3]
    · simp [activateTurn, dispatchTurn, hc, handleConversationFlow, ht, hstep, hparse]
    · simp [activateTurn, dispatchTurn, hc, handleConversationFlow, ht, hstep]
  have hfix : (activateTurn req analysis oracle s).state = s := hone s rfl
  refine ⟨hfix, ?_⟩
  intro n
  induction n with
  | zero => rfl
  | succ k ih =>
    rw [Function.iterate_succ_apply', ih, hfix]

/-- Claim C2 witness: an invalid platform token on the directive at a fresh
session, repeated three times, leaves the state untouched. -/
theorem claim_C2_witness :
    (activateTurn ⟨some "integrate", "vxworks"⟩ {} { modelsAvailable := false }
        initialState).state = initialState ∧
    (fun t => (activateTurn ⟨some "integrate", "vxworks"⟩ {} { modelsAvailable := false }
        t).state)^[3] initialState = initialState := by
  have h := claim_C2 initialState {} { modelsAvailable := false }
    ⟨some "integrate", "vxworks"⟩ (Or.inl ⟨rfl, by decide, by decide, by decide⟩)
  exact ⟨h.1, h.2 3⟩

/-- Claim C7: when the AWAITING_ALT_FN turn triggers generation and no
oracle model is available, the turn emits the visible warning and the
textual configuration summary built from the captured platform, memory,
dataset and alternative values, no exception propagates, and the
conversation completes normally (terminal reset to AWAITING_START). -/
theorem claim_C7 (s : ConversationState) (oracle : OracleEnv) (prompt : String)
    (hs : s.step = .alternative) (hm : oracle.modelsAvailable = false) :
    "⚠️ Language Model not available\n\n" ∈ (handleConversationFlow prompt oracle s).output ∧
    ("Config: Platform=" ++ optPlatformStr s.platform ++
       ", Memory=" ++ optStr s.memoryFunction ++
       ", Dataset=" ++ optStr s.datasetFunction ++
       ", Alt=" ++ jsTrim prompt ++ "\n") ∈ (handleConversationFlow prompt oracle s).output ∧
    "\n\n✅ **Integration complete!**\n\n" ∈ (handleConversationFlow prompt oracle s).output ∧
    (handleConversationFlow prompt oracle s).err = none ∧
    (handleConversationFlow prompt oracle s).state.step = .initial := by
  simp [handleConversationFlow, hs, generateIntegrationCode, hm, completeLines, optStr]

/-- Claim C7 witness: a concrete completed configuration with no model
available still yields the warning, the summary and a completed turn. -/
theorem claim_C7_witness :
    "⚠️ Language Model not available\n\n" ∈
      (handleConversationFlow "none" { modelsAvailable := false }
        { step := .alternative, platform := some .posix,
          memoryFunction := some "ShmM_MapOwner",
          datasetFunction := some "MyReader" }).output ∧
    "Config: Platform=posix, Memory=ShmM_MapOwner, Dataset=MyReader, Alt=none\n" ∈
      (handleConversationFlow "none" { modelsAvailable := false }
        { step := .alternative, platform := some .posix,
          memoryFunction := some "ShmM_MapOwner",
          datasetFunction := some "MyReader" }).output := by
  have h := claim_C7
    { step := .alternative, platform := some .posix,
      memoryFunction := some "ShmM_MapOwner", datasetFunction := some "MyReader" }
    { modelsAvailable := false } "none" rfl rfl
  exact ⟨h.1, by simpa [optPlatformStr, Platform.name, optStr] using h.2.1⟩

/-- Claim C8: at each capture step, every user text — including text that is
empty after whitespace trimming — is accepted and recorded verbatim after
trimming into the corresponding field, and `step` advances exactly one
position (AWAITING_ALT_FN advances to DONE, whose terminal reset then
returns the session to AWAITING_START within the same turn). -/
theorem claim_C8 (s : ConversationState) (oracle : OracleEnv) (prompt : String) :
    (s.step = .memory →
      (handleConversationFlow prompt oracle s).state =
        { s with memoryFunction := some (jsTrim prompt), step := .dataset }) ∧
    (s.step = .dataset →
      (handleConversationFlow prompt oracle s).state =
        { s with datasetFunction := some (jsTrim prompt), step := .alternative }) ∧
    (s.step = .alternative →
      (oracle.modelsAvailable = false ∨ oracle.cancelled = false) →
      (handleConversationFlow prompt oracle s).gen =
        some { s with alternativeFunction := some (jsTrim prompt), step := .complete } ∧
      (handleConversationFlow prompt oracle s).state =
        { s with alternativeFunction := some (jsTrim prompt), step := .initial }) := by
  refine ⟨?_, ?_, ?_⟩
  · intro hs
    simp [handleConversationFlow, hs]
  · intro hs
    simp [handleConversationFlow, hs]
  · intro hs hok
    rcases hok with hm | hc
    · constructor <;> simp [handleConversationFlow, hs, generateIntegrationCode, hm]
    · by_cases hm : oracle.modelsAvailable = false
      · constructor <;> simp [handleConversationFlow, hs, generateIntegrationCode, hm]
      · constructor <;> simp [handleConversationFlow, hs, generateIntegrationCode, hm, hc]

/-- Claim C8 witness: whitespace-only user text at the memory step is
accepted and recorded as the empty string, advancing to the dataset step. -/
theorem claim_C8_witness :
    (handleConversationFlow "   " { modelsAvailable := false }
        { step := .memory }).state =
      { step := .dataset, memoryFunction := some "" } := by
  have h := (claim_C8 { step := .memory } { modelsAvailable := false } "   ").1 rfl
  rw [h]
  decide

/-- Claim C10: if generation throws (e.g. is cancelled) after the
AWAITING_ALT_FN turn recorded altFn, `step` remains `complete` — the reset
to `initial` is skipped; at `complete`, every free-text turn matches no
handler branch (no output, no state change, no generation), every request
that is not a begin-integration directive with a valid platform token leaves
the state untouched, and a valid begin-integration directive does change the
session state again. -/
theorem claim_C10 (s : ConversationState) (analysis : WorkspaceAnalysis) (oracle : OracleEnv)
    (prompt : String) :
    (s.step = .alternative → oracle.modelsAvailable = true → oracle.cancelled = true →
      (activateTurn ⟨none, prompt⟩ analysis oracle s).state =
        { s with alternativeFunction := some (jsTrim prompt), step := .complete }) ∧
    (s.step = .complete →
      (handleConversationFlow prompt oracle s).state = s ∧
      (handleConversationFlow prompt oracle s).output = [] ∧
      (handleConversationFlow prompt oracle s).gen = none) ∧
    (s.step = .complete → ∀ req : ChatRequest,
      (req.command = some "integrate" →
        jsToLower (jsTrim req.prompt) ≠ "posix" ∧
        jsToLower (jsTrim req.prompt) ≠ "autosar" ∧
        jsToLower (jsTrim req.prompt) ≠ "motionwise") →
      (activateTurn req analysis oracle s).state = s) ∧
    (s.step = .complete → ∀ p2 : String, jsToLower (jsTrim p2) = "posix" →
      (activateTurn ⟨some "integrate", p2⟩ analysis oracle s).state.step = .memory) := by
  refine ⟨?_, ?_, ?_, ?_⟩
  · intro hs hm hc
    simp [activateTurn, dispatchTurn, handleConversationFlow, hs,
      generateIntegrationCode, hm, hc]
  · intro hs
    simp [handleConversationFlow, hs]
  · intro hs req hinv
    by_cases hc : req.command = some "integrate"
    · obtain ⟨h1, h2, h3⟩ := hinv hc
      simp [activateTurn, dispatchTurn, hc, handleIntegrateCommand, h1, h2, h3]
    · by_cases hv : req.command = some "validate"
      · simp [activateTurn, dispatchTurn, hc, hv]
      · by_cases ha : req.command = some "adapter"
        · simp [activateTurn, dispatchTurn, hc, hv, ha]
        · simp [activateTurn, dispatchTurn, hc, hv, ha, handleConversationFlow, hs]
  · intro hs p2 hp2
    simp [activateTurn, dispatchTurn, handleIntegrateCommand, hp2]

/-- Claim C10 witness: a cancelled generation leaves a stuck `complete`
session; free text there is a silent no-op, and a fresh `/integrate posix`
directive restarts it. -/
theorem claim_C10_witness :
    (activateTurn ⟨none, "none"⟩ {} { modelsAvailable := true, cancelled := true }
        { step := .alternative }).state =
      { step := .complete, alternativeFunction := some "none" } ∧
    (handleConversationFlow "hello?" { modelsAvailable := true }
        { step := .complete }).output = [] ∧
    (activateTurn ⟨some "integrate", "posix"⟩ {} { modelsAvailable := true }
        { step := .complete }).state.step = .memory := by
  refine ⟨?_, ?_, ?_⟩
  · have h := (claim_C10 { step := .alternative } {}
      { modelsAvailable := true, cancelled := true } "none").1 rfl rfl rfl
    rw [h]; decide
  · exact ((claim_C10 { step := .complete } {} { modelsAvailable := true } "hello?").2.1
      rfl).2.1
  · exact (claim_C10 { step := .complete } {} { modelsAvailable := true } "x").2.2.2
      rfl "posix" (by decide)

/-- Claim C1 counterexample: a begin-integration directive with the valid
token `posix` arriving while the session is at AWAITING_DATASET_FN moves
`step` back to AWAITING_MEMORY_FN — not one position forward, but a
regression along the documented sequence. -/
theorem claim_C1_counterexample :
    (activateTurn ⟨some "integrate", "posix"⟩ {} { modelsAvailable := false }
        { step := .dataset, platform := some .posix,
          memoryFunction := some "ShmM_MapOwner" }).state.step = .memory ∧
    ¬ oneForward .dataset .memory ∧
    stepPos .memory < stepPos .dataset := by
  exact ⟨by decide, by decide, by decide⟩

/-- Claim C1 (amended): every valid input handled at the step it belongs to
moves `step` exactly one position forward along AWAITING_START →
[AWAITING_VARIANT_SELECTION] → AWAITING_MEMORY_FN → AWAITING_DATASET_FN →
AWAITING_ALT_FN → DONE → AWAITING_START; however a begin-integration
directive with a valid token arriving at ANY step unconditionally sets
`step` to AWAITING_MEMORY_FN or AWAITING_VARIANT_SELECTION, which is a
regression when the session is at a later step. -/
theorem claim_C1_amended :
    (∀ (s : ConversationState) (analysis : WorkspaceAnalysis) (oracle : OracleEnv)
       (prompt : String),
      s.step = .initial →
      (jsToLower (jsTrim prompt) = "posix" ∨ jsToLower (jsTrim prompt) = "autosar" ∨
       jsToLower (jsTrim prompt) = "motionwise") →
      oneForward s.step
        (activateTurn ⟨some "integrate", prompt⟩ analysis oracle s).state.step) ∧
    (∀ (s : ConversationState) (oracle : OracleEnv) (prompt : String) (c : MotionWiseConfig),
      s.step = .config → parseMotionWiseConfig (jsTrim prompt) = some c →
      oneForward s.step (handleConversationFlow prompt oracle s).state.step) ∧
    (∀ (s : ConversationState) (oracle : OracleEnv) (prompt : String),
      s.step = .memory →
      oneForward s.step (handleConversationFlow prompt oracle s).state.step) ∧
    (∀ (s : ConversationState) (oracle : OracleEnv) (prompt : String),
      s.step = .dataset →
      oneForward s.step (handleConversationFlow prompt oracle s).state.step) ∧
    (∀ (s : ConversationState) (oracle : OracleEnv) (prompt : String),
      s.step = .alternative →
      ∃ g, (handleConversationFlow prompt oracle s).gen = some g ∧
        oneForward s.step g.step ∧
        ((handleConversationFlow prompt oracle s).err = none →
          (handleConversationFlow prompt oracle s).state.step = .initial)) ∧
    (∀ (s : ConversationState) (analysis : WorkspaceAnalysis) (oracle : OracleEnv)
       (prompt : String),
      (jsToLower (jsTrim prompt) = "posix" ∨ jsToLower (jsTrim prompt) = "autosar" ∨
       jsToLower (jsTrim prompt) = "motionwise") →
      (activateTurn ⟨some "integrate", prompt⟩ analysis oracle s).state.step = .memory ∨
      (activateTurn ⟨some "integrate", prompt⟩ analysis oracle s).state.step = .config) := by
  have hint : ∀ (s : ConversationState) (analysis : WorkspaceAnalysis) (oracle : OracleEnv)
      (prompt : String),
      (jsToLower (jsTrim prompt) = "posix" ∨ jsToLower (jsTrim prompt) = "autosar" ∨
       jsToLower (jsTrim prompt) = "motionwise") →
      (activateTurn ⟨some "integrate", prompt⟩ analysis oracle s).state.step = .memory ∨
      (activateTurn ⟨some "integrate", prompt⟩ analysis oracle s).state.step = .config := by
    intro s analysis oracle prompt htok
    rcases htok with h | h | h
    · left
      simp [activateTurn, dispatchTurn, handleIntegrateCommand, h]
    · left
      simp [activateTurn, dispatchTurn, handleIntegrateCommand, h]
    · cases hd : analysis.detectedMotionWiseConfig with
      | none =>
        right
        simp [activateTurn, dispatchTurn, handleIntegrateCommand, h, hd]
      | some cfg =>
        by_cases hu : cfg = .unknown
        · right
          simp [activateTurn, dispatchTurn, handleIntegrateCommand, h, hd, hu]
        · left
          simp [activateTurn, dispatchTurn, handleIntegrateCommand, h, hd, hu]
  refine ⟨?_, ?_, ?_, ?_, ?_, hint⟩
  · intro s analysis oracle prompt hs htok
    rw [hs]
    rcases hint s analysis oracle prompt htok with h | h <;> rw [h] <;> decide
  · intro s oracle prompt c hs hc
    rw [hs]
    have : (handleConversationFlow prompt oracle s).state.step = .memory := by
      simp [handleConversationFlow, hs, hc]
    rw [this]; decide
  · intro s oracle prompt hs
    rw [hs]
    have : (handleConversationFlow prompt oracle s).state.step = .dataset := by
      simp [handleConversationFlow, hs]
    rw [this]; decide
  · intro s oracle prompt hs
    rw [hs]
    have : (handleConversationFlow prompt oracle s).state.step = .alternative := by
      simp [handleConversationFlow, hs]
    rw [this]; decide
  · intro s oracle prompt hs
    refine ⟨{ s with alternativeFunction := some (jsTrim prompt), step := .complete },
      ?_, by rw [hs]; exact Or.inr (Or.inr (Or.inr (Or.inr (Or.inl ⟨rfl, rfl⟩)))), ?_⟩
    · simp only [handleConversationFlow, hs]
      cases hg : generateIntegrationCode oracle
          { s with alternativeFunction := some (jsTrim prompt), step := .complete } with
      | error e => simp [hg]
      | ok out => simp [hg]
    · intro herr
      simp only [handleConversationFlow, hs] at herr ⊢
      cases hg : generateIntegrationCode oracle
          { s with alternativeFunction := some (jsTrim prompt), step := .complete } with
      | error e => simp [hg] at herr
      | ok out => simp [hg]

/-- Claim C1 (amended) witness: a directive `posix` on a fresh session moves
one position forward (to AWAITING_MEMORY_FN). -/
theorem claim_C1_witness :
    oneForward Step.initial
      (activateTurn ⟨some "integrate", "posix"⟩ {} { modelsAvailable := false }
        initialState).state.step :=
  claim_C1_amended.1 initialState {} { modelsAvailable := false } "posix"
    rfl (Or.inl (by decide))

/-- Claim C5 counterexample: a turn at AWAITING_ALT_FN cancelled during the
oracle request does NOT leave the session as it was before the turn — the
altFn write and the step write to DONE happen before the oracle call and
persist past the cancellation. -/
theorem claim_C5_counterexample :
    (activateTurn ⟨none, "none"⟩ {} { modelsAvailable := true, cancelled := true }
        { step := .alternative, platform := some .posix }).state ≠
      { step := .alternative, platform := some .posix } := by
  decide

/-- Claim C5 (amended): the cancellation signal reaches only the oracle
request of the AWAITING_ALT_FN turn; a turn cancelled there leaves the
session equal to the pre-turn state with exactly the two writes that
preceded the oracle call applied (altFn recorded, step at DONE) — no other
field is touched; turns at every other step perform no cancellable oracle
I/O, so their outcome does not depend on the cancellation signal at all. -/
theorem claim_C5_amended (s : ConversationState) (analysis : WorkspaceAnalysis)
    (oracle : OracleEnv) (prompt : String)
    (hs : s.step = .alternative) (hm : oracle.modelsAvailable = true)
    (hc : oracle.cancelled = true) :
    (activateTurn ⟨none, prompt⟩ analysis oracle s).state =
      { s with alternativeFunction := some (jsTrim prompt), step := .complete } ∧
    ∀ (s2 : ConversationState) (o1 o2 : OracleEnv) (p2 : String),
      s2.step ≠ .alternative →
      handleConversationFlow p2 o1 s2 = handleConversationFlow p2 o2 s2 := by
  constructor
  · simp [activateTurn, dispatchTurn, handleConversationFlow, hs,
      generateIntegrationCode, hm, hc]
  · intro s2 o1 o2 p2 hstep
    cases h2 : s2.step with
    | initial => simp [handleConversationFlow, h2]
    | config => simp [handleConversationFlow, h2]
    | memory => simp [handleConversationFlow, h2]
    | dataset => simp [handleConversationFlow, h2]
    | alternative => exact absurd h2 hstep
    | complete => simp [handleConversationFlow, h2]

/-- Claim C5 (amended) witness: the concrete cancelled generation turn. -/
theorem claim_C5_witness :
    (activateTurn ⟨none, " MyAltFn "⟩ {} { modelsAvailable := true, cancelled := true }
        { step := .alternative, platform := some .posix }).state =
      { step := .complete, platform := some .posix,
        alternativeFunction := some "MyAltFn" } := by
  have h := (claim_C5_amended { step := .alternative, platform := some .posix } {}
    { modelsAvailable := true, cancelled := true } " MyAltFn " rfl rfl rfl).1
  rw [h]
  decide

/-- The error catch in `activate` changes neither the session state nor the
generation snapshot of a turn. -/
lemma activateTurn_state_gen (req : ChatRequest) (analysis : WorkspaceAnalysis)
    (oracle : OracleEnv) (s : ConversationState) :
    (activateTurn req analysis oracle s).state = (dispatchTurn req analysis oracle s).state ∧
    (activateTurn req analysis oracle s).gen = (dispatchTurn req analysis oracle s).gen := by
  unfold activateTurn
  cases h : (dispatchTurn req analysis oracle s).err <;> simp [h]

/-- The oracle prompt depends only on the four configuration fields. -/
lemma buildCodeGenerationPrompt_congr {x y : ConversationState}
    (hp : x.platform = y.platform) (hm : x.memoryFunction = y.memoryFunction)
    (hd : x.datasetFunction = y.datasetFunction)
    (ha : x.alternativeFunction = y.alternativeFunction) :
    buildCodeGenerationPrompt x = buildCodeGenerationPrompt y := by
  simp [buildCodeGenerationPrompt, hp, hm, hd, ha]

/-- `handleIntegrateCommand` preserves the simulation relation: it writes
`platform` (and step, config, path) identically in both runs and never
consults the fields the relation tracks. -/
lemma inv_integrate (p : String) (analysis : WorkspaceAnalysis) {a b : ConversationState}
    (h : Inv a b) :
    Inv (handleIntegrateCommand p analysis a).1 (handleIntegrateCommand p analysis b).1 := by
  by_cases h1 : jsToLower (jsTrim p) = "posix"
  · simp [handleIntegrateCommand, h1, Inv]
  by_cases h2 : jsToLower (jsTrim p) = "autosar"
  · simp [handleIntegrateCommand, h1, h2, Inv]
  by_cases h3 : jsToLower (jsTrim p) = "motionwise"
  · cases hd : analysis.detectedMotionWiseConfig with
    | none => simp [handleIntegrateCommand, h1, h2, h3, hd, Inv]
    | some cfg =>
      by_cases hu : cfg = .unknown
      · simp [handleIntegrateCommand, h1, h2, h3, hd, hu, Inv]
      · simp [handleIntegrateCommand, h1, h2, h3, hd, hu, Inv]
  · simpa [handleIntegrateCommand, h1, h2, h3] using h

/-- `handleConversationFlow` preserves the simulation relation, and the
oracle prompts of the generation snapshots (if any) coincide. -/
lemma flow_initial_proj (p : String) (oracle : OracleEnv) {s : ConversationState}
    (hs : s.step = .initial) :
    (handleConversationFlow p oracle s).state = s ∧
    (handleConversationFlow p oracle s).gen = none := by
  simp [handleConversationFlow, hs]

lemma flow_config_some_proj (p : String) (oracle : OracleEnv) {s : ConversationState}
    {c : MotionWiseConfig} (hs : s.step = .config)
    (hp : parseMotionWiseConfig (jsTrim p) = some c) :
    (handleConversationFlow p oracle s).state =
      { s with
        motionwiseConfig := some c,
        integrationPath := some (MOTIONWISE_PATHS c),
        step := .memory } ∧
    (handleConversationFlow p oracle s).gen = none := by
  simp [handleConversationFlow, hs, hp]

lemma flow_config_none_proj (p : String) (oracle : OracleEnv) {s : ConversationState}
    (hs : s.step = .config)
    (hp : parseMotionWiseConfig (jsTrim p) = none) :
    (handleConversationFlow p oracle s).state = s ∧
    (handleConversationFlow p oracle s).gen = none := by
  simp [handleConversationFlow, hs, hp]

lemma flow_memory_proj (p : String) (oracle : OracleEnv) {s : ConversationState}
    (hs : s.step = .memory) :
    (handleConversationFlow p oracle s).state =
      { s with
        memoryFunction := some (jsTrim p),
        step := .dataset } ∧
    (handleConversationFlow p oracle s).gen = none := by
  simp [handleConversationFlow, hs]

lemma flow_dataset_proj (p : String) (oracle : OracleEnv) {s : ConversationState}
    (hs : s.step = .dataset) :
    (handleConversationFlow p oracle s).state =
      { s with
        datasetFunction := some (jsTrim p),
        step := .alternative } ∧
    (handleConversationFlow p oracle s).gen = none := by
  simp [handleConversationFlow, hs]

lemma flow_alt_proj (p : String) (oracle : OracleEnv) {s : ConversationState}
    (hs : s.step = .alternative) :
    (handleConversationFlow p oracle s).state =
      (if oracle.modelsAvailable = false ∨ oracle.cancelled = false then
        { s with
          alternativeFunction := some (jsTrim p),
          step := .initial }
      else
        { s with
          alternativeFunction := some (jsTrim p),
          step := .complete }) ∧
    (handleConversationFlow p oracle s).gen =
      some { s with
             alternativeFunction := some (jsTrim p),
             step := .complete } := by
  simp only [handleConversationFlow, hs, generateIntegrationCode]
  by_cases hm : oracle.modelsAvailable = false
  · simp [hm]
  · by_cases hc : oracle.cancelled = true
    · simp [hm, hc]
    · simp [hm, hc]

lemma flow_complete_proj (p : String) (oracle : OracleEnv) {s : ConversationState}
    (hs : s.step = .complete) :
    (handleConversationFlow p oracle s).state = s ∧
    (handleConversationFlow p oracle s).gen = none := by
  simp [handleConversationFlow, hs]

/-- `handleConversationFlow` preserves the simulation relation, and the
oracle prompts of the generation snapshots (if any) coincide. -/
lemma inv_flow (p : String) (oracle : OracleEnv) {a b : ConversationState} (h : Inv a b) :
    Inv (handleConversationFlow p oracle a).state (handleConversationFlow p oracle b).state ∧
    ((handleConversationFlow p oracle a).gen.map buildCodeGenerationPrompt =
      (handleConversationFlow p oracle b).gen.map buildCodeGenerationPrompt) := by
  obtain ⟨hstep, hplat, hmem, hdat⟩ := h
  cases hsa : a.step with
  | initial =>
    have hsb : b.step = .initial := by rw [← hstep]; exact hsa
    obtain ⟨ha1, ha2⟩ := flow_initial_proj p oracle hsa
    obtain ⟨hb1, hb2⟩ := flow_initial_proj p oracle hsb
    rw [ha1, ha2, hb1, hb2]
    exact ⟨⟨hstep, hplat, hmem, hdat⟩, rfl⟩
  | config =>
    have hsb : b.step = .config := by rw [← hstep]; exact hsa
    cases hp : parseMotionWiseConfig (jsTrim p) with
    | some c =>
      obtain ⟨ha1, ha2⟩ := flow_config_some_proj p oracle hsa hp
      obtain ⟨hb1, hb2⟩ := flow_config_some_proj p oracle hsb hp
      rw [ha1, ha2, hb1, hb2]
      refine ⟨⟨rfl, ?_, ?_, ?_⟩, rfl⟩
      · intro hx
        simpa using hplat (Or.inl hsa)
      · intro hx
        simp at hx
      · intro hx
        simp at hx
    | none =>
      obtain ⟨ha1, ha2⟩ := flow_config_none_proj p oracle hsa hp
      obtain ⟨hb1, hb2⟩ := flow_config_none_proj p oracle hsb hp
      rw [ha1, ha2, hb1, hb2]
      exact ⟨⟨hstep, hplat, hmem, hdat⟩, rfl⟩
  | memory =>
    have hsb : b.step = .memory := by rw [← hstep]; exact hsa
    obtain ⟨ha1, ha2⟩ := flow_memory_proj p oracle hsa
    obtain ⟨hb1, hb2⟩ := flow_memory_proj p oracle hsb
    rw [ha1, ha2, hb1, hb2]
    refine ⟨⟨rfl, ?_, ?_, ?_⟩, rfl⟩
    · intro hx
      simpa using hplat (Or.inr (Or.inl hsa))
    · intro hx
      simp
    · intro hx
      simp at hx
  | dataset =>
    have hsb : b.step = .dataset := by rw [← hstep]; exact hsa
    obtain ⟨ha1, ha2⟩ := flow_dataset_proj p oracle hsa
    obtain ⟨hb1, hb2⟩ := flow_dataset_proj p oracle hsb
    rw [ha1, ha2, hb1, hb2]
    refine ⟨⟨rfl, ?_, ?_, ?_⟩, rfl⟩
    · intro hx
      simpa using hplat (Or.inr (Or.inr (Or.inl hsa)))
    · intro hx
      simpa using hmem (Or.inl hsa)
    · intro hx
      simp
  | alternative =>
    have hsb : b.step = .alternative := by rw [← hstep]; exact hsa
    have hp' : a.platform = b.platform := hplat (Or.inr (Or.inr (Or.inr hsa)))
    have hm' : a.memoryFunction = b.memoryFunction := hmem (Or.inr hsa)
    have hd' : a.datasetFunction = b.datasetFunction := hdat hsa
    have hprompt :
        buildCodeGenerationPrompt
          { a with alternativeFunction := some (jsTrim p), step := .complete } =
        buildCodeGenerationPrompt
          { b with alternativeFunction := some (jsTrim p), step := .complete } :=
      buildCodeGenerationPrompt_congr hp' hm' hd' rfl
    obtain ⟨ha1, ha2⟩ := flow_alt_proj p oracle hsa
    obtain ⟨hb1, hb2⟩ := flow_alt_proj p oracle hsb
    rw [ha1, ha2, hb1, hb2]
    by_cases hok : oracle.modelsAvailable = false ∨ oracle.cancelled = false
    · rw [if_pos hok, if_pos hok]
      refine ⟨⟨rfl, ?_, ?_, ?_⟩, by simpa using hprompt⟩ <;> intro hx <;> simp at hx
    · rw [if_neg hok, if_neg hok]
      refine ⟨⟨rfl, ?_, ?_, ?_⟩, by simpa using hprompt⟩ <;> intro hx <;> simp at hx
  | complete =>
    have hsb : b.step = .complete := by rw [← hstep]; exact hsa
    obtain ⟨ha1, ha2⟩ := flow_complete_proj p oracle hsa
    obtain ⟨hb1, hb2⟩ := flow_complete_proj p oracle hsb
    rw [ha1, ha2, hb1, hb2]
    exact ⟨⟨hstep, hplat, hmem, hdat⟩, rfl⟩

/-- One full turn of the chat handler preserves the simulation relation and
produces prompt-equal generation snapshots. -/
lemma inv_activate (req : ChatRequest) (analysis : WorkspaceAnalysis) (oracle : OracleEnv)
    {a b : ConversationState} (h : Inv a b) :
    Inv (activateTurn req analysis oracle a).state (activateTurn req analysis oracle b).state ∧
    ((activateTurn req analysis oracle a).gen.map buildCodeGenerationPrompt =
      (activateTurn req analysis oracle b).gen.map buildCodeGenerationPrompt) := by
  rw [(activateTurn_state_gen req analysis oracle a).1,
    (activateTurn_state_gen req analysis oracle a).2,
    (activateTurn_state_gen req analysis oracle b).1,
    (activateTurn_state_gen req analysis oracle b).2]
  by_cases hci : req.command = some "integrate"
  · simp only [dispatchTurn, hci, if_true]
    exact ⟨inv_integrate req.prompt analysis h, by trivial⟩
  · by_cases hcv : req.command = some "validate"
    · simpa [dispatchTurn, hci, hcv] using h
    · by_cases hca : req.command = some "adapter"
      · simpa [dispatchTurn, hci, hcv, hca] using h
      · simp only [dispatchTurn, hci, hcv, hca, if_false]
        exact inv_flow req.prompt oracle h

/-- Mapping over `Option.toList` respects `Option.map` equality. -/
lemma toList_map_of_map_eq {α β : Type} (f : α → β) {o1 o2 : Option α}
    (h : o1.map f = o2.map f) : o1.toList.map f = o2.toList.map f := by
  cases o1 <;> cases o2 <;> simp_all

/-- Two related runs of the same turn sequence trigger generations with
identical oracle prompts. -/
lemma runTurns_gens_congr (L : List (ChatRequest × WorkspaceAnalysis × OracleEnv))
    {s s' : ConversationState} (h : Inv s s') :
    (runTurns L s).2.map buildCodeGenerationPrompt =
      (runTurns L s').2.map buildCodeGenerationPrompt := by
  induction L generalizing s s' with
  | nil => rfl
  | cons head tail ih =>
    obtain ⟨req, analysis, oracle⟩ := head
    obtain ⟨hInv2, hgen⟩ := inv_activate req analysis oracle h
    simp only [runTurns, List.map_append]
    rw [toList_map_of_map_eq _ hgen, ih hInv2]

/-- Claim C4 counterexample: driving a full session (directive `posix`,
memory `ShmM_MapOwner`, dataset `MyReader`, alternative `none`) leaves the
session with `step` reset to AWAITING_START but with every captured value
still present — the captured values are NOT discarded or reset together
with `step`. -/
theorem claim_C4_counterexample :
    (runTurns
        [(⟨some "integrate", "posix"⟩, {},
            { modelsAvailable := true, responseChunks := ["// generated"] }),
         (⟨none, "ShmM_MapOwner"⟩, {}, { modelsAvailable := true }),
         (⟨none, "MyReader"⟩, {}, { modelsAvailable := true }),
         (⟨none, "none"⟩, {}, { modelsAvailable := true })]
        initialState).1 =
      { step := .initial, platform := some .posix,
        integrationPath := some "1800-EcuIntegration/[PLATFORM]/core/development/dmiu",
        memoryFunction := some "ShmM_MapOwner",
        datasetFunction := some "MyReader",
        alternativeFunction := some "none" } := by
  decide

/-- Claim C4 (amended): after the AWAITING_ALT_FN turn triggers generation,
only `step` is reset to AWAITING_START — the captured fields persist in the
session object; nevertheless no captured value of the completed session is
carried into a later generation: two sessions that agree only on the
post-completion `step` (AWAITING_START, or DONE after a throw) produce
pointwise identical oracle prompts on every subsequent turn sequence,
because a later session necessarily rewrites platform, memoryFn, datasetFn
and altFn before its generation triggers. -/
theorem claim_C4_amended :
    (∀ (s : ConversationState) (oracle : OracleEnv) (prompt : String),
      s.step = .alternative → (oracle.modelsAvailable = false ∨ oracle.cancelled = false) →
      (handleConversationFlow prompt oracle s).state =
        { s with alternativeFunction := some (jsTrim prompt), step := .initial }) ∧
    (∀ (L : List (ChatRequest × WorkspaceAnalysis × OracleEnv))
       (s s' : ConversationState),
      s.step = s'.step → (s.step = .initial ∨ s.step = .complete) →
      (runTurns L s).2.map buildCodeGenerationPrompt =
        (runTurns L s').2.map buildCodeGenerationPrompt) := by
  constructor
  · intro s oracle prompt hs hok
    have h := (flow_alt_proj prompt oracle hs).1
    rw [h, if_pos hok]
  · intro L s s' hstep hinit
    have hInv : Inv s s' := by
      refine ⟨hstep, ?_, ?_, ?_⟩ <;> intro hx <;>
        rcases hinit with h | h <;> rw [h] at hx <;> simp at hx
    exact runTurns_gens_congr L hInv

/-- Claim C4 (amended) witness: a leftover completed session and a fresh
session generate the same prompt when driven through the same new turns. -/
theorem claim_C4_witness :
    (runTurns
        [(⟨some "integrate", "autosar"⟩, {}, { modelsAvailable := false }),
         (⟨none, "NewMem"⟩, {}, { modelsAvailable := false }),
         (⟨none, "NewData"⟩, {}, { modelsAvailable := false }),
         (⟨none, "none"⟩, {}, { modelsAvailable := false })]
        { step := .initial, platform := some .posix,
          memoryFunction := some "OldMem", datasetFunction := some "OldData",
          alternativeFunction := some "OldAlt" }).2.map buildCodeGenerationPrompt =
      (runTurns
        [(⟨some "integrate", "autosar"⟩, {}, { modelsAvailable := false }),
         (⟨none, "NewMem"⟩, {}, { modelsAvailable := false }),
         (⟨none, "NewData"⟩, {}, { modelsAvailable := false }),
         (⟨none, "none"⟩, {}, { modelsAvailable := false })]
        initialState).2.map buildCodeGenerationPrompt :=
  claim_C4_amended.2
    [(⟨some "integrate", "autosar"⟩, {}, { modelsAvailable := false }),
     (⟨none, "NewMem"⟩, {}, { modelsAvailable := false }),
     (⟨none, "NewData"⟩, {}, { modelsAvailable := false }),
     (⟨none, "none"⟩, {}, { modelsAvailable := false })]
    { step := .initial, platform := some .posix,
      memoryFunction := some "OldMem", datasetFunction := some "OldData",
      alternativeFunction := some "OldAlt" }
    initialState rfl (Or.inl rfl)

end Dfu
